import Mathlib

/-!
# Verification of the document-mapping and schema-drift-tolerant write layer

Shallow embedding of `src/services/auth.ts`, `src/services/portfolio.ts`
(the portfolio service half of the same module), the project types and the
`sortProjects` helper of the portfolio context hook, from the
hacktober-appwrite repository.

JavaScript runtime values are modelled by the inductive type `Value`
(strings, numbers as integers, booleans, arrays, plain objects, `null`
and `undefined`).  Backend documents are `Doc`: the SDK-guaranteed
metadata strings `$id`, `$createdAt`, `$updatedAt` plus an opaque
attribute list.  The Appwrite backend itself is external to the
repository; where its behaviour decides a claim (error shapes, query
filtering) it is modelled from the external-interface section of the spec and
said so in the corresponding doc comment.
-/

/-- A JavaScript runtime value.  Numbers are modelled as integers (no claim
here touches fractional or NaN arithmetic). -/
inductive Value where
  | str (s : String)
  | num (n : Int)
  | bool (b : Bool)
  | arr (xs : List Value)
  | obj (fields : List (String × Value))
  | null
  | undefined

mutual

/-- Decidable equality for `Value` (written by hand: the nested `List`
occurrences defeat the derive handler). -/
def valueDecEq : (a b : Value) → Decidable (a = b)
  | .str s, .str t =>
    match String.decEq s t with
    | .isTrue h => .isTrue (congrArg Value.str h)
    | .isFalse h => .isFalse (by intro he; injection he with h1; exact h h1)
  | .num m, .num n =>
    match decEq m n with
    | .isTrue h => .isTrue (congrArg Value.num h)
    | .isFalse h => .isFalse (by intro he; injection he with h1; exact h h1)
  | .bool x, .bool y =>
    match decEq x y with
    | .isTrue h => .isTrue (congrArg Value.bool h)
    | .isFalse h => .isFalse (by intro he; injection he with h1; exact h h1)
  | .arr xs, .arr ys =>
    match valueListDecEq xs ys with
    | .isTrue h => .isTrue (congrArg Value.arr h)
    | .isFalse h => .isFalse (by intro he; injection he with h1; exact h h1)
  | .obj xs, .obj ys =>
    match attrsDecEq xs ys with
    | .isTrue h => .isTrue (congrArg Value.obj h)
    | .isFalse h => .isFalse (by intro he; injection he with h1; exact h h1)
  | .null, .null => .isTrue rfl
  | .undefined, .undefined => .isTrue rfl
  | .str _, .num _ | .str _, .bool _ | .str _, .arr _ | .str _, .obj _
  | .str _, .null | .str _, .undefined
  | .num _, .str _ | .num _, .bool _ | .num _, .arr _ | .num _, .obj _
  | .num _, .null | .num _, .undefined
  | .bool _, .str _ | .bool _, .num _ | .bool _, .arr _ | .bool _, .obj _
  | .bool _, .null | .bool _, .undefined
  | .arr _, .str _ | .arr _, .num _ | .arr _, .bool _ | .arr _, .obj _
  | .arr _, .null | .arr _, .undefined
  | .obj _, .str _ | .obj _, .num _ | .obj _, .bool _ | .obj _, .arr _
  | .obj _, .null | .obj _, .undefined
  | .null, .str _ | .null, .num _ | .null, .bool _ | .null, .arr _
  | .null, .obj _ | .null, .undefined
  | .undefined, .str _ | .undefined, .num _ | .undefined, .bool _ | .undefined, .arr _
  | .undefined, .obj _ | .undefined, .null => .isFalse (fun h => Value.noConfusion h)

def valueListDecEq : (a b : List Value) → Decidable (a = b)
  | [], [] => .isTrue rfl
  | [], _ :: _ => .isFalse (fun h => List.noConfusion h)
  | _ :: _, [] => .isFalse (fun h => List.noConfusion h)
  | x :: xs, y :: ys =>
    match valueDecEq x y with
    | .isFalse h => .isFalse (by intro he; injection he with h1 h2; exact h h1)
    | .isTrue h1 =>
      match valueListDecEq xs ys with
      | .isTrue h2 => .isTrue (by rw [h1, h2])
      | .isFalse h => .isFalse (by intro he; injection he with _ h2; exact h h2)

def attrsDecEq : (a b : List (String × Value)) → Decidable (a = b)
  | [], [] => .isTrue rfl
  | [], _ :: _ => .isFalse (fun h => List.noConfusion h)
  | _ :: _, [] => .isFalse (fun h => List.noConfusion h)
  | (k, v) :: xs, (l, w) :: ys =>
    match String.decEq k l with
    | .isFalse h => .isFalse (by
        intro he; injection he with h1 h2; injection h1 with hk hv; exact h hk)
    | .isTrue hk =>
      match valueDecEq v w with
      | .isFalse h => .isFalse (by
          intro he; injection he with h1 h2; injection h1 with hk hv; exact h hv)
      | .isTrue hv =>
        match attrsDecEq xs ys with
        | .isTrue h2 => .isTrue (by rw [hk, hv, h2])
        | .isFalse h => .isFalse (by intro he; injection he with _ h2; exact h h2)

end

instance : DecidableEq Value := valueDecEq

/-- JavaScript truthiness: `undefined`, `null`, the empty string, `0` and `false` are
falsy; every other value (including `[]` and `\x7b\x7d`) is truthy. -/
def truthy : Value → Bool
  | .str s => s ≠ ""
  | .num n => n ≠ 0
  | .bool b => b
  | .arr _ => true
  | .obj _ => true
  | .null => false
  | .undefined => false

/-- JavaScript `a || b`: `a` when truthy, otherwise `b`. -/
def jsOr (a b : Value) : Value := if truthy a then a else b

mutual

/-- Model of the JavaScript `String(x)` coercion. -/
def jsToString : Value → String
  | .str s => s
  | .num n => toString n
  | .bool b => if b then "true" else "false"
  | .null => "null"
  | .undefined => "undefined"
  | .obj _ => "[object Object]"
  | .arr xs => jsJoin xs

/-- Model of `Array.prototype.toString`: elements joined with commas, with `null`
and `undefined` elements rendered as the empty string. -/
def jsJoin : List Value → String
  | [] => ""
  | [x] => jsJoinElem x
  | x :: rest => jsJoinElem x ++ "," ++ jsJoin rest

def jsJoinElem : Value → String
  | .null => ""
  | .undefined => ""
  | v => jsToString v

end

/-- A backend document: SDK metadata plus opaque attributes. -/
structure Doc where
  id : String
  createdAt : String
  updatedAt : String
  attrs : List (String × Value)
deriving DecidableEq

/-- First-match lookup in an attribute list. -/
def lookupAttr : List (String × Value) → String → Option Value
  | [], _ => none
  | (k, v) :: rest, key => if k = key then some v else lookupAttr rest key

/-- JavaScript property access `(doc as any).k`: a missing attribute reads
as `undefined`. -/
def getAttr (d : Doc) (k : String) : Value :=
  (lookupAttr d.attrs k).getD .undefined

/-- Model of `Object.entries(v)` for the object-typed values the code feeds it:
plain objects give their key/value pairs, arrays give index/element
pairs. -/
def entriesOf : Value → List (String × Value)
  | .obj fs => fs
  | .arr xs => (xs.enum).map (fun p => (toString p.1, p.2))
  | _ => []

/-- Source functions `AuthService.toStringArray` / `PortfolioService.toStringArray`:
`Array.isArray(value) ? value.map(item => String(item)) : []`. -/
def toStringArray : Value → List String
  | .arr xs => xs.map jsToString
  | _ => []

/-- Source function `AuthService.normalizeSocialLinks`: non-objects and falsy values give
the empty mapping; otherwise keep exactly the entries whose value is a
nonempty string. -/
def normalizeSocialLinks (v : Value) : List (String × String) :=
  if ¬ truthy v then []
  else match v with
    | .obj fs => (fs.filterMap (fun p =>
        match p.2 with
        | .str s => if s ≠ "" then some (p.1, s) else none
        | _ => none))
    | .arr xs => ((entriesOf (.arr xs)).filterMap (fun p =>
        match p.2 with
        | .str s => if s ≠ "" then some (p.1, s) else none
        | _ => none))
    | _ => []

/-- The mapped `User` entity.  Fields whose source expression can pass an
arbitrary truthy value through (the `x || empty-string` idiom) are kept as `Value`; fields the
source coerces structurally (`toStringArray`, `normalizeSocialLinks`) get
their coerced types. -/
structure UserE where
  id : String
  name : Value
  email : Value
  bio : Value
  avatar : Value
  website : Value
  location : Value
  pronouns : Value
  availability : Value
  skills : List String
  socialLinks : List (String × String)
  createdAt : String
  updatedAt : String
  createdBy : Value
deriving DecidableEq

/-- Source function `AuthService.mapUserDocument`. -/
def mapUserDocument (doc : Doc) : UserE :=
  { id := doc.id
    name := jsOr (getAttr doc "name") (.str "")
    email := jsOr (getAttr doc "email") (.str "")
    bio := jsOr (getAttr doc "bio") (.str "")
    avatar := jsOr (getAttr doc "avatar") (.str "")
    website := jsOr (getAttr doc "website") (.str "")
    location := jsOr (getAttr doc "location") (.str "")
    pronouns := jsOr (getAttr doc "pronouns") (.str "")
    availability := jsOr (getAttr doc "availability") (.str "")
    skills := toStringArray (getAttr doc "skills")
    socialLinks := normalizeSocialLinks (getAttr doc "socialLinks")
    createdAt := doc.createdAt
    updatedAt := doc.updatedAt
    createdBy := jsOr (getAttr doc "createdBy") (.str "") }

/-- The mapped `Project` entity. -/
structure ProjectE where
  id : String
  title : Value
  description : Value
  category : Value
  tags : List String
  images : List String
  videos : List String
  documents : List String
  isPublic : Bool
  featured : Bool
  order : Int
  userId : Value
  createdBy : Value
  coverImage : Value
  liveUrl : Value
  sourceUrl : Value
  startDate : Value
  endDate : Value
  highlights : List String
  techStack : List String
  createdAt : String
  updatedAt : String
deriving DecidableEq

/-- Helper for `images[0]` as a JavaScript value: `undefined` on an empty array. -/
def headValue : List String → Value
  | [] => .undefined
  | s :: _ => .str s

/-- Source function `PortfolioService.mapProjectDoc`. -/
def mapProjectDoc (doc : Doc) : ProjectE :=
  { id := doc.id
    title := jsOr (getAttr doc "title") (.str "")
    description := jsOr (getAttr doc "description") (.str "")
    category := jsOr (getAttr doc "category") (.str "uncategorized")
    tags := toStringArray (getAttr doc "tags")
    images := toStringArray (getAttr doc "images")
    videos := toStringArray (getAttr doc "videos")
    documents := toStringArray (getAttr doc "documents")
    isPublic := match getAttr doc "isPublic" with
                | .undefined => true
                | v => truthy v
    featured := truthy (getAttr doc "featured")
    order := match getAttr doc "order" with
             | .num n => n
             | _ => 0
    userId := jsOr (getAttr doc "userId") (jsOr (getAttr doc "createdBy") (.str ""))
    createdBy := jsOr (getAttr doc "createdBy") (jsOr (getAttr doc "userId") (.str ""))
    coverImage := jsOr (getAttr doc "coverImage")
                   (jsOr (headValue (toStringArray (getAttr doc "images"))) (.str ""))
    liveUrl := jsOr (getAttr doc "liveUrl") (.str "")
    sourceUrl := jsOr (getAttr doc "sourceUrl") (.str "")
    startDate := jsOr (getAttr doc "startDate") (.str "")
    endDate := jsOr (getAttr doc "endDate") (.str "")
    highlights := toStringArray (getAttr doc "highlights")
    techStack := toStringArray (getAttr doc "techStack")
    createdAt := doc.createdAt
    updatedAt := doc.updatedAt }

/-! ## Schema-drift-tolerant write layer -/

/-- Initial value of the module-level mutable set `USER_UPDATE_FIELDS`.
The loops below thread the current value of this set explicitly (the spec
itself recommends modelling it as explicit state). -/
def USER_UPDATE_FIELDS : List String :=
  ["name", "bio", "avatar", "website", "location", "pronouns",
   "availability", "skills", "socialLinks"]

/-- The mandatory identity fields of `createUserDocument`. -/
def mandatoryCreateFields : List String := ["name", "email", "createdBy"]

/-- A write payload: the key/value entries of the JavaScript payload
object (keys unique, as they come from an object literal). -/
abbrev Payload := List (String × Value)

/-- JavaScript `delete payload[a]`. -/
def eraseKey (p : Payload) (a : String) : Payload :=
  p.filter (fun kv => kv.1 ≠ a)

/-- Whether the payload has an entry with key `a`. -/
def containsKey (p : Payload) (a : String) : Bool :=
  p.any (fun kv => kv.1 = a)

/-- Whitespace test used by the model of `String.prototype.trim`. -/
def isWsChar (c : Char) : Bool :=
  c = ' ' ∨ c = '\t' ∨ c = '\n' ∨ c = '\r'

/-- Model of JavaScript `s.trim()`. -/
def jsTrim (s : String) : String :=
  ⟨((s.data.dropWhile isWsChar).reverse.dropWhile isWsChar).reverse⟩

/-- Bool test for `Array.isArray`. -/
def isArrB : Value → Bool
  | .arr _ => true
  | _ => false

/-- Bool test for the JavaScript `typeof v` equals `object` check
(objects, arrays and `null`). -/
def isObjTypeB : Value → Bool
  | .obj _ => true
  | .arr _ => true
  | .null => true
  | _ => false

/-- Per-entry value transformation of `sanitizeUserUpdateData`: skills
arrays are trimmed and emptied of blank entries, socialLinks objects keep
only entries whose value trims to a nonempty string (stored trimmed),
strings are trimmed, and anything else passes through. -/
def sanitizeValue (key : String) (value : Value) : Value :=
  if key = "skills" ∧ isArrB value then
    match value with
    | .arr xs =>
      .arr (((xs.map (fun sk =>
          match sk with
          | .str s => jsTrim s
          | _ => "")).filter (fun s => s ≠ "")).map .str)
    | v => v
  else if key = "socialLinks" ∧ truthy value ∧ isObjTypeB value then
    .obj ((entriesOf value).filterMap (fun p =>
      match p.2 with
      | .str s => if (jsTrim s).length > 0 then some (p.1, .str (jsTrim s)) else none
      | _ => none))
  else
    match value with
    | .str s => .str (jsTrim s)
    | v => v

/-- Source function `sanitizeUserUpdateData`, with the current value of the
mutable `USER_UPDATE_FIELDS` set passed as `fields`: entries whose key is
not in the set, or whose value is `undefined`, are dropped; the rest are
cleaned by `sanitizeValue`. -/
def sanitizeUserUpdateData (fields : List String) : List (String × Value) → Payload
  | [] => []
  | (key, value) :: rest =>
    if fields.contains key ∧ value ≠ Value.undefined then
      (key, sanitizeValue key value) :: sanitizeUserUpdateData fields rest
    else
      sanitizeUserUpdateData fields rest

/-- Backend response to one document write.  `unknownAttr a` models an
error whose message matches the pattern recognised by
`extractUnknownAttribute` (the regex on `Unknown attribute`), carrying the
extracted attribute name; `failed msg` models every other error. -/
inductive WriteResp where
  | ok (d : Doc)
  | unknownAttr (a : String)
  | failed (msg : String)

/-- Terminal outcome of `createUserDocument`. -/
inductive CreateRes where
  | success (d : Doc)
  | unknownMandatory (a : String)
  | noValidFields
  | backendFailed (msg : String)
deriving DecidableEq

/-- Result record of a `createUserDocument` run: terminal outcome, number
of backend write attempts, final value of the updatable-field set, and the
attributes stripped from the payload (in stripping order). -/
structure CreateOut where
  res : CreateRes
  attempts : Nat
  fields : List String
  stripped : List String
deriving DecidableEq

/-- Source function `AuthService.createUserDocument` (the unbounded
`while (true)` retry loop), with fuel making the recursion explicit: a
`none` result means the loop would still be running after `fuel`
iterations.  Each iteration attempts the write; an unknown-attribute error
on a mandatory field is rethrown, otherwise the attribute is deleted from
the payload and from the updatable-field set, an empty payload fails
terminally, and a nonempty one is retried. -/
def createUserDocument (respond : Payload → WriteResp) (fields : List String) :
    Nat → Payload → Option CreateOut
  | 0, _ => none
  | fuel + 1, payload =>
    match respond payload with
    | .ok d => some ⟨.success d, 1, fields, []⟩
    | .failed msg => some ⟨.backendFailed msg, 1, fields, []⟩
    | .unknownAttr a =>
      if mandatoryCreateFields.contains a then
        some ⟨.unknownMandatory a, 1, fields, []⟩
      else
        let fields' := fields.filter (fun f => f ≠ a)
        let payload' := eraseKey payload a
        if payload'.isEmpty then
          some ⟨.noValidFields, 1, fields', [a]⟩
        else
          match createUserDocument respond fields' fuel payload' with
          | none => none
          | some out => some ⟨out.res, out.attempts + 1, out.fields, a :: out.stripped⟩

/-- Terminal outcome of the `updateProfile` write loop. -/
inductive UpdateRes where
  | success (u : UserE)
  | getDocFailed (msg : String)
  | backendFailed (msg : String)
deriving DecidableEq

/-- Result record of an `updateProfile` loop run (same shape as
`CreateOut`; `attempts` counts write attempts). -/
structure UpdateOut where
  res : UpdateRes
  attempts : Nat
  fields : List String
  stripped : List String
deriving DecidableEq

/-- Retry loop of `AuthService.updateProfile` (the `while (true)` over
`remainingPayload`).  `existing` models `databases.getDocument` for the
document of the calling account, which the loop reads and returns mapped
when the remaining payload is empty.  On an unknown-attribute error the
attribute is deleted from the payload and the updatable-field set without
any mandatory-field check, and the loop retries. -/
def updateProfileLoop (respond : Payload → WriteResp) (existing : Option Doc)
    (fields : List String) : Nat → Payload → Option UpdateOut
  | 0, _ => none
  | fuel + 1, payload =>
    if payload.isEmpty then
      match existing with
      | some d => some ⟨.success (mapUserDocument d), 0, fields, []⟩
      | none => some ⟨.getDocFailed "Document with the requested ID could not be found.", 0, fields, []⟩
    else
      match respond payload with
      | .ok d => some ⟨.success (mapUserDocument d), 1, fields, []⟩
      | .failed msg => some ⟨.backendFailed msg, 1, fields, []⟩
      | .unknownAttr a =>
        let fields' := fields.filter (fun f => f ≠ a)
        match updateProfileLoop respond existing fields' fuel (eraseKey payload a) with
        | none => none
        | some out => some ⟨out.res, out.attempts + 1, out.fields, a :: out.stripped⟩

/-! ## Listing pipeline -/

/-- Comparator shared by `PortfolioService.getProjects` and the
`sortProjects` helper of the portfolio context hook: ascending `order`,
then descending creation time.  `gt` models `s => new Date(s).getTime()`
as an integer timestamp interpretation of the `$createdAt` string. -/
def projectCmp (gt : String → Int) (a b : ProjectE) : Int :=
  if a.order ≠ b.order then a.order - b.order
  else gt b.createdAt - gt a.createdAt

/-- Stable insertion used to model `Array.prototype.sort` (stable per the
ECMAScript spec).  The inserted element precedes, in the original list,
everything already inserted, so it is placed before the first element it
compares less-or-equal to. -/
def stableInsert (le : α → α → Bool) (x : α) : List α → List α
  | [] => [x]
  | h :: t => if le x h then x :: h :: t else h :: stableInsert le x t

/-- Stable sort by insertion (model of `Array.prototype.sort` for a
consistent comparator). -/
def stableSortBy (le : α → α → Bool) : List α → List α
  | [] => []
  | h :: t => stableInsert le h (stableSortBy le t)

/-- Source function `sortProjects` (portfolio context hook), also the
sort at the end of `PortfolioService.getProjects`. -/
def sortProjects (gt : String → Int) (items : List ProjectE) : List ProjectE :=
  stableSortBy (fun a b => projectCmp gt a b ≤ 0) items

/-- Query expressions built by `PortfolioService.getProjects`. -/
inductive Query where
  | equalStr (attr : String) (v : String)
  | equalBool (attr : String) (v : Bool)
  | orderAsc (attr : String)

/-- Modelled from the spec: the external backend exposes
`list(filterExpressions, sortExpressions)` over opaque records.
`Query.equal` filters to the documents whose stored attribute equals the
given value; `Query.orderAsc` only affects the backend-side ordering,
which the client re-sorts anyway, so it is modelled as a non-filter. -/
def matchesQuery (d : Doc) : Query → Bool
  | .equalStr attr v => getAttr d attr = Value.str v
  | .equalBool attr v => getAttr d attr = Value.bool v
  | .orderAsc _ => true

/-- Modelled from the spec: `databases.listDocuments` returns the stored
documents satisfying every filter expression. -/
def listDocuments (store : List Doc) (queries : List Query) : List Doc :=
  store.filter (fun d => queries.all (matchesQuery d))

/-- Source function `PortfolioService.getProjects`: a truthy `userId`
argument scopes the query to that owner, an absent (or empty-string, hence
falsy) one scopes it to public documents; the results are mapped and then
sorted client-side. -/
def getProjects (gt : String → Int) (store : List Doc) (userId : Option String) :
    List ProjectE :=
  let userIdTruthy : Bool := match userId with
    | some u => u ≠ ""
    | none => false
  let queries :=
    (if userIdTruthy then [Query.equalStr "userId" (userId.getD "")]
     else [Query.equalBool "isPublic" true]) ++ [Query.orderAsc "order"]
  let mappedProjects := (listDocuments store queries).map mapProjectDoc
  sortProjects gt mappedProjects

/-! ## Profile reads -/

/-- Prefix test on character lists (helper for the substring model). -/
def charsStartWith : List Char → List Char → Bool
  | _, [] => true
  | [], _ :: _ => false
  | c :: cs, p :: ps => c = p ∧ charsStartWith cs ps

/-- Substring test on character lists. -/
def charsContain : List Char → List Char → Bool
  | [], pat => pat.isEmpty
  | c :: t, pat => charsStartWith (c :: t) pat ∨ charsContain t pat

/-- Model of JavaScript `s.includes(pat)`. -/
def strContains (s pat : String) : Bool :=
  charsContain s.data pat.data

/-- Result of a `databases.getDocument` call: a document, or an error
carrying the machine-readable code and human-readable message described in
the external-interface section of the spec. -/
inductive FetchRes where
  | ok (d : Doc)
  | err (code : Int) (msg : String)

/-- Message of the Appwrite document-not-found error. -/
def docNotFoundMsg : String := "Document with the requested ID could not be found."

/-- Source function `AuthService.getUserProfile`: a 404 from the backend
reads as `none`; any other error is rethrown with its message (or a
fallback).  `fetch` models `databases.getDocument` on the users
collection; `validateConfig` is assumed to pass, as in a configured
deployment. -/
def getUserProfile (fetch : String → FetchRes) (userId : String) :
    Except String (Option UserE) :=
  match fetch userId with
  | .ok d => .ok (some (mapUserDocument d))
  | .err code msg =>
    if code = 404 then .ok none
    else .error (if msg ≠ "" then msg else "Unable to load user profile.")

/-- Deployment configuration placeholders (nonempty, as `validateConfig`
requires).  Only used to assemble error-message text. -/
def DATABASE_ID : String := "db"

/-- Users collection identifier placeholder. -/
def COLLECTION_USERS : String := "users"

/-- Catch-block of `AuthService.getCurrentUser`: configuration problems
are rethrown with explanatory messages (quote characters of the original
messages dropped), everything else - including the document-not-found case
- reads as `none`. -/
def handleGetCurrentUserError (e : Int × String) : Except String (Option UserE) :=
  if strContains e.2 "Missing required environment variables" then
    .error "Configuration error: Missing required environment variables. Please check your .env file configuration."
  else if strContains e.2 "Collection with the requested ID could not be found" then
    .error ("Configuration error: Collection " ++ COLLECTION_USERS ++ " not found in database "
      ++ DATABASE_ID ++ ". Please check your Appwrite configuration.")
  else if strContains e.2 "Database with the requested ID could not be found" then
    .error ("Configuration error: Database " ++ DATABASE_ID
      ++ " not found. Please check your Appwrite configuration.")
  else .ok none

/-- Source function `AuthService.getCurrentUser` with its error dispatch:
`accountRes` models `account.get()`, `fetch` models
`databases.getDocument`; `validateConfig` is assumed to pass. -/
def getCurrentUserErr (accountRes : Except (Int × String) String)
    (fetch : String → FetchRes) : Except String (Option UserE) :=
  match accountRes with
  | .error e => handleGetCurrentUserError e
  | .ok accountId =>
    match fetch accountId with
    | .ok d => .ok (some (mapUserDocument d))
    | .err c m => handleGetCurrentUserError (c, m)

/-! ## Session / profile manager -/

/-- A registered identity of the external identity service. -/
structure Account where
  id : String
  email : String
  password : String
  name : String
deriving DecidableEq

/-- State visible to `AuthService.login`: the registered accounts, the
stored user documents, the accepted attribute schema of the users
collection, the identity of the active session (if any), and the current
value of the mutable `USER_UPDATE_FIELDS` set. -/
structure World where
  accounts : List Account
  userDocs : List Doc
  schema : List String
  session : Option String
  updFields : List String
deriving DecidableEq

/-- Externally visible backend calls recorded by `login`: session
invalidation, session creation and user-document creation. -/
inductive Ev where
  | deleteSessionsEv
  | createSessionEv (email : String)
  | createDocEv (id : String)
deriving DecidableEq

/-- Model of `account.get()`: the account of the active session. -/
def accountGet (w : World) : Option Account :=
  match w.session with
  | none => none
  | some sid => w.accounts.find? (fun a => a.id = sid)

/-- Lookup of a user document by its identifier. -/
def findDoc (docs : List Doc) (id : String) : Option Doc :=
  docs.find? (fun d => d.id = id)

/-- Source function `AuthService.getCurrentUser` restricted to the states
this world model can produce (configuration present, errors only from a
missing session or a missing document, both of which the catch block turns
into `null`); `getCurrentUserErr` above models its full error dispatch. -/
def getCurrentUserW (w : World) : Option UserE :=
  match accountGet w with
  | none => none
  | some a =>
    match findDoc w.userDocs a.id with
    | some d => some (mapUserDocument d)
    | none => none

/-- Model of `account.createEmailPasswordSession`: succeeds exactly on a
registered email/password pair. -/
def findByCredentials (accounts : List Account) (email pw : String) : Option Account :=
  accounts.find? (fun a => decide (a.email = email ∧ a.password = pw))

/-- Modelled from the spec: the backend `create(id, payload)` call on the
users collection rejects a payload whose first offending key lies outside
the accepted attribute set with an unknown-attribute error; otherwise it
stores and returns the document. -/
def schemaRespond (schema : List String) (id : String) (payload : Payload) : WriteResp :=
  match payload.find? (fun kv => ¬ schema.contains kv.1) with
  | some kv => .unknownAttr kv.1
  | none => .ok ⟨id, "", "", payload⟩

/-- Message of the Appwrite invalid-credentials error. -/
def invalidCredentialsMsg : String := "Invalid credentials. Please check the email and password."

/-- Message thrown by `login` when the profile document cannot be
retrieved or created after a session exists. -/
def loginConfigFailMsg : String :=
  "Failed to get user after login. Please check your Appwrite configuration (DATABASE_ID and COLLECTION_USERS)"

/-- Outer catch of `AuthService.login`: messages mentioning sessions are
replaced by a conflict message, empty messages by a generic one. -/
def loginCatch (msg : String) : String :=
  if strContains msg "session" then "Session conflict detected. Please try again."
  else if msg ≠ "" then msg else "Login failed. Please try again."

/-- Result of a `login` call: the returned profile or thrown message, the
final state, and the recorded backend calls in order. -/
structure LoginOut where
  res : Except String UserE
  world : World
  events : List Ev

/-- Continuation of `login` after the already-logged-in check: create the
session, fetch the profile, and create the profile document on the fly if
it is missing (via `createUserDocument` with fuel covering its four-field
payload, which `schemaRespond` always terminates within). -/
def loginAfterCheck (w : World) (email pw : String) (evs : List Ev) : LoginOut :=
  match findByCredentials w.accounts email pw with
  | none => ⟨.error (loginCatch invalidCredentialsMsg), w, evs⟩
  | some acc =>
    let w1 : World := { w with session := some acc.id }
    let evs1 := evs ++ [Ev.createSessionEv email]
    match getCurrentUserW w1 with
    | some u => ⟨.ok u, w1, evs1⟩
    | none =>
      match accountGet w1 with
      | none => ⟨.error (loginCatch loginConfigFailMsg), w1, evs1⟩
      | some a =>
        let payload : Payload :=
          [("email", .str a.email), ("name", .str a.name), ("createdBy", .str a.id)]
        match createUserDocument (schemaRespond w1.schema a.id) w1.updFields
            (payload.length + 1) payload with
        | some out =>
          match out.res with
          | .success d =>
            let w2 : World := { w1 with userDocs := d :: w1.userDocs, updFields := out.fields }
            let evs2 := evs1 ++ [Ev.createDocEv a.id]
            match getCurrentUserW w2 with
            | some u => ⟨.ok u, w2, evs2⟩
            | none => ⟨.error (loginCatch loginConfigFailMsg), w2, evs2⟩
          | _ => ⟨.error (loginCatch loginConfigFailMsg), { w1 with updFields := out.fields }, evs1⟩
        | none => ⟨.error (loginCatch loginConfigFailMsg), w1, evs1⟩

/-- Source function `AuthService.login`: an active session for the same
profile email returns that profile untouched; an active session for a
different (or unreadable) profile is deleted in full before the new
session is created; without an active session the login proceeds
directly.  The 100 ms propagation delay is a no-op in this sequential
model and console logging is dropped. -/
def login (w : World) (email pw : String) : LoginOut :=
  match accountGet w with
  | none => loginAfterCheck w email pw []
  | some _ =>
    match getCurrentUserW w with
    | some cu =>
      if cu.email = Value.str email then ⟨.ok cu, w, []⟩
      else loginAfterCheck { w with session := none } email pw [Ev.deleteSessionsEv]
    | none => loginAfterCheck { w with session := none } email pw [Ev.deleteSessionsEv]

/-! ## Concrete data used by witnesses and counterexamples -/

/-- Bool test for string-ness of a mapped field value. -/
def isStrB : Value → Bool
  | .str _ => true
  | _ => false

/-- Bool test for number-ness (the `typeof v` equals `number` check). -/
def isNumB : Value → Bool
  | .num _ => true
  | _ => false

/-- Type-correctness, as the spec states it, of the `Value`-typed fields
of a mapped user: every declared string field holds a string.  (The
list/mapping/timestamp fields are type-correct by construction.) -/
def typeCorrectUserValuesB (u : UserE) : Bool :=
  isStrB u.name ∧ isStrB u.email ∧ isStrB u.bio ∧ isStrB u.avatar ∧
  isStrB u.website ∧ isStrB u.location ∧ isStrB u.pronouns ∧
  isStrB u.availability ∧ isStrB u.createdBy

/-- Type-correctness, as the spec states it, of the `Value`-typed fields
of a mapped project. -/
def typeCorrectProjectValuesB (p : ProjectE) : Bool :=
  isStrB p.title ∧ isStrB p.description ∧ isStrB p.category ∧
  isStrB p.userId ∧ isStrB p.createdBy ∧ isStrB p.coverImage ∧
  isStrB p.liveUrl ∧ isStrB p.sourceUrl ∧ isStrB p.startDate ∧ isStrB p.endDate

/-- A document whose `name` attribute is a truthy non-string and whose
`category` attribute is absent. -/
def docBadC4 : Doc := ⟨"d1", "2024-01-01", "2024-01-02", [("name", Value.num 5)]⟩

/-- An existing stored user document (used as the read-back document of
the update loop in concrete runs). -/
def doc0 : Doc :=
  ⟨"u1", "2024-01-01", "2024-01-01",
   [("name", Value.str "Ada"), ("email", Value.str "ada@example.com")]⟩

/-- A backend that reports `name` as an unknown attribute on every write. -/
def respondNameUnknown : Payload → WriteResp := fun _ => .unknownAttr "name"

/-- A backend that reports `bio` as an unknown attribute on every write. -/
def respondBioUnknown : Payload → WriteResp := fun _ => .unknownAttr "bio"

/-- A backend that always rejects the first payload key as unknown and
accepts the empty payload. -/
def respondFirstKey : Payload → WriteResp := fun p =>
  match p with
  | [] => .ok ⟨"z", "", "", []⟩
  | (k, _) :: _ => .unknownAttr k

/-- A backend that rejects `bio` while the payload carries it and accepts
the write afterwards. -/
def respondC8 : Payload → WriteResp := fun p =>
  if containsKey p "bio" then .unknownAttr "bio" else .ok ⟨"u1", "", "", p⟩

/-- Integer timestamp interpretation used in concrete listing examples:
the length of the `$createdAt` string (injective on the examples used). -/
def gtLen : String → Int := fun s => (s.length : Int)

/-- Helper building a mapped project with a given title, display order and
creation timestamp. -/
def mkTestProject (title : String) (ord : Int) (created : String) : ProjectE :=
  mapProjectDoc ⟨title, created, created, [("title", Value.str title), ("order", Value.num ord)]⟩

/-- Order-1 project created at time 2 (the newer of the tied pair). -/
def pNew1 : ProjectE := mkTestProject "pnew" 1 "22"

/-- Order-1 project created at time 1 (the older of the tied pair). -/
def pOld1 : ProjectE := mkTestProject "pold" 1 "1"

/-- Order-3 project. -/
def pOrd3 : ProjectE := mkTestProject "pthree" 3 "1"

/-- Two distinct projects agreeing on display order and creation time. -/
def pTieA : ProjectE := mkTestProject "tieA" 1 "1"

/-- Second member of the tied pair. -/
def pTieB : ProjectE := mkTestProject "tieB" 1 "1"

/-- Private project of owner alice. -/
def d6a : Doc :=
  ⟨"p1", "1", "1", [("userId", Value.str "alice"), ("isPublic", Value.bool false)]⟩

/-- Public project of owner bob. -/
def d6b : Doc :=
  ⟨"p2", "1", "1", [("userId", Value.str "bob"), ("isPublic", Value.bool true)]⟩

/-- Public project of owner alice. -/
def d6c : Doc :=
  ⟨"p3", "1", "1", [("userId", Value.str "alice"), ("isPublic", Value.bool true)]⟩

/-- Store backing the listing examples. -/
def store0 : List Doc := [d6a, d6b, d6c]

/-- Account A of the login examples. -/
def accA : Account := ⟨"idA", "a@example.com", "pwA", "A"⟩

/-- Account B of the login examples. -/
def accB : Account := ⟨"idB", "b@example.com", "pwB", "B"⟩

/-- Stored profile document of account A. -/
def docAccA : Doc :=
  ⟨"idA", "1", "1", [("name", Value.str "A"), ("email", Value.str "a@example.com")]⟩

/-- Stored profile document of account B. -/
def docAccB : Doc :=
  ⟨"idB", "1", "1", [("name", Value.str "B"), ("email", Value.str "b@example.com")]⟩

/-- World with an active session for B while A requests login. -/
def worldB : World :=
  ⟨[accA, accB], [docAccA, docAccB], ["name", "email", "createdBy"], some "idB",
   USER_UPDATE_FIELDS⟩

/-- World with an active session for A while A requests login. -/
def worldA : World :=
  ⟨[accA, accB], [docAccA, docAccB], ["name", "email", "createdBy"], some "idA",
   USER_UPDATE_FIELDS⟩

/-- Backend read that answers 404 document-not-found for every id. -/
def fetch404 : String → FetchRes := fun _ => .err 404 docNotFoundMsg

/-- Document with neither `userId` nor `createdBy`. -/
def docW10 : Doc := ⟨"w", "1", "1", []⟩

/-- Document with `createdBy` but no `userId`. -/
def docW10b : Doc := ⟨"w2", "1", "1", [("createdBy", Value.str "zoe")]⟩

/-! ## Mapper property groups (for the totality/defaulting claim) -/

/-- Absent string attributes of a user document map to the empty string. -/
def userAbsentDefaults (doc : Doc) : Prop :=
  (getAttr doc "name" = .undefined → (mapUserDocument doc).name = .str "") ∧
  (getAttr doc "email" = .undefined → (mapUserDocument doc).email = .str "") ∧
  (getAttr doc "bio" = .undefined → (mapUserDocument doc).bio = .str "") ∧
  (getAttr doc "avatar" = .undefined → (mapUserDocument doc).avatar = .str "") ∧
  (getAttr doc "website" = .undefined → (mapUserDocument doc).website = .str "") ∧
  (getAttr doc "location" = .undefined → (mapUserDocument doc).location = .str "") ∧
  (getAttr doc "pronouns" = .undefined → (mapUserDocument doc).pronouns = .str "") ∧
  (getAttr doc "availability" = .undefined → (mapUserDocument doc).availability = .str "") ∧
  (getAttr doc "createdBy" = .undefined → (mapUserDocument doc).createdBy = .str "") ∧
  (isArrB (getAttr doc "skills") = false → (mapUserDocument doc).skills = []) ∧
  (getAttr doc "socialLinks" = .undefined → (mapUserDocument doc).socialLinks = [])

/-- Each string-typed user field is a string or the unchanged truthy
upstream value. -/
def userPassthrough (doc : Doc) : Prop :=
  (isStrB (mapUserDocument doc).name = true ∨ (mapUserDocument doc).name = getAttr doc "name") ∧
  (isStrB (mapUserDocument doc).email = true ∨ (mapUserDocument doc).email = getAttr doc "email") ∧
  (isStrB (mapUserDocument doc).bio = true ∨ (mapUserDocument doc).bio = getAttr doc "bio") ∧
  (isStrB (mapUserDocument doc).avatar = true ∨ (mapUserDocument doc).avatar = getAttr doc "avatar") ∧
  (isStrB (mapUserDocument doc).website = true ∨ (mapUserDocument doc).website = getAttr doc "website") ∧
  (isStrB (mapUserDocument doc).location = true ∨ (mapUserDocument doc).location = getAttr doc "location") ∧
  (isStrB (mapUserDocument doc).pronouns = true ∨ (mapUserDocument doc).pronouns = getAttr doc "pronouns") ∧
  (isStrB (mapUserDocument doc).availability = true ∨ (mapUserDocument doc).availability = getAttr doc "availability") ∧
  (isStrB (mapUserDocument doc).createdBy = true ∨ (mapUserDocument doc).createdBy = getAttr doc "createdBy")

/-- No mapped user field is left `undefined`. -/
def userTotal (doc : Doc) : Prop :=
  (mapUserDocument doc).name ≠ .undefined ∧
  (mapUserDocument doc).email ≠ .undefined ∧
  (mapUserDocument doc).bio ≠ .undefined ∧
  (mapUserDocument doc).avatar ≠ .undefined ∧
  (mapUserDocument doc).website ≠ .undefined ∧
  (mapUserDocument doc).location ≠ .undefined ∧
  (mapUserDocument doc).pronouns ≠ .undefined ∧
  (mapUserDocument doc).availability ≠ .undefined ∧
  (mapUserDocument doc).createdBy ≠ .undefined

/-- Absent project attributes map to their declared defaults.  Note the
deviations from a uniform empty-string default: `category` defaults to
the literal `uncategorized`, `coverImage` falls back to the first image,
and `userId`/`createdBy` fall back to each other. -/
def projectAbsentDefaults (doc : Doc) : Prop :=
  (getAttr doc "title" = .undefined → (mapProjectDoc doc).title = .str "") ∧
  (getAttr doc "description" = .undefined → (mapProjectDoc doc).description = .str "") ∧
  (getAttr doc "category" = .undefined → (mapProjectDoc doc).category = .str "uncategorized") ∧
  (getAttr doc "liveUrl" = .undefined → (mapProjectDoc doc).liveUrl = .str "") ∧
  (getAttr doc "sourceUrl" = .undefined → (mapProjectDoc doc).sourceUrl = .str "") ∧
  (getAttr doc "startDate" = .undefined → (mapProjectDoc doc).startDate = .str "") ∧
  (getAttr doc "endDate" = .undefined → (mapProjectDoc doc).endDate = .str "") ∧
  (getAttr doc "userId" = .undefined → getAttr doc "createdBy" = .undefined →
    (mapProjectDoc doc).userId = .str "" ∧ (mapProjectDoc doc).createdBy = .str "") ∧
  (getAttr doc "coverImage" = .undefined → getAttr doc "images" = .undefined →
    (mapProjectDoc doc).coverImage = .str "")

/-- Structural coercions of the project mapper: non-list list fields to
the empty list, non-numeric order to zero, booleans through `Boolean()`
with absent `isPublic` reading as true. -/
def projectCoercions (doc : Doc) : Prop :=
  (isArrB (getAttr doc "tags") = false → (mapProjectDoc doc).tags = []) ∧
  (isArrB (getAttr doc "images") = false → (mapProjectDoc doc).images = []) ∧
  (isArrB (getAttr doc "videos") = false → (mapProjectDoc doc).videos = []) ∧
  (isArrB (getAttr doc "documents") = false → (mapProjectDoc doc).documents = []) ∧
  (isArrB (getAttr doc "highlights") = false → (mapProjectDoc doc).highlights = []) ∧
  (isArrB (getAttr doc "techStack") = false → (mapProjectDoc doc).techStack = []) ∧
  (isNumB (getAttr doc "order") = false → (mapProjectDoc doc).order = 0) ∧
  ((mapProjectDoc doc).featured = truthy (getAttr doc "featured")) ∧
  (getAttr doc "isPublic" = .undefined → (mapProjectDoc doc).isPublic = true) ∧
  (getAttr doc "isPublic" ≠ .undefined → (mapProjectDoc doc).isPublic = truthy (getAttr doc "isPublic"))

/-- Each string-typed project field is a string or an unchanged truthy
upstream value (for `userId`/`createdBy`: one of the two source
attributes). -/
def projectPassthrough (doc : Doc) : Prop :=
  (isStrB (mapProjectDoc doc).title = true ∨ (mapProjectDoc doc).title = getAttr doc "title") ∧
  (isStrB (mapProjectDoc doc).description = true ∨ (mapProjectDoc doc).description = getAttr doc "description") ∧
  (isStrB (mapProjectDoc doc).category = true ∨ (mapProjectDoc doc).category = getAttr doc "category") ∧
  (isStrB (mapProjectDoc doc).userId = true ∨ (mapProjectDoc doc).userId = getAttr doc "userId"
    ∨ (mapProjectDoc doc).userId = getAttr doc "createdBy") ∧
  (isStrB (mapProjectDoc doc).createdBy = true ∨ (mapProjectDoc doc).createdBy = getAttr doc "createdBy"
    ∨ (mapProjectDoc doc).createdBy = getAttr doc "userId") ∧
  (isStrB (mapProjectDoc doc).coverImage = true ∨ (mapProjectDoc doc).coverImage = getAttr doc "coverImage") ∧
  (isStrB (mapProjectDoc doc).liveUrl = true ∨ (mapProjectDoc doc).liveUrl = getAttr doc "liveUrl") ∧
  (isStrB (mapProjectDoc doc).sourceUrl = true ∨ (mapProjectDoc doc).sourceUrl = getAttr doc "sourceUrl") ∧
  (isStrB (mapProjectDoc doc).startDate = true ∨ (mapProjectDoc doc).startDate = getAttr doc "startDate") ∧
  (isStrB (mapProjectDoc doc).endDate = true ∨ (mapProjectDoc doc).endDate = getAttr doc "endDate")

/-- No mapped project field is left `undefined`. -/
def projectTotal (doc : Doc) : Prop :=
  (mapProjectDoc doc).title ≠ .undefined ∧
  (mapProjectDoc doc).description ≠ .undefined ∧
  (mapProjectDoc doc).category ≠ .undefined ∧
  (mapProjectDoc doc).userId ≠ .undefined ∧
  (mapProjectDoc doc).createdBy ≠ .undefined ∧
  (mapProjectDoc doc).coverImage ≠ .undefined ∧
  (mapProjectDoc doc).liveUrl ≠ .undefined ∧
  (mapProjectDoc doc).sourceUrl ≠ .undefined ∧
  (mapProjectDoc doc).startDate ≠ .undefined ∧
  (mapProjectDoc doc).endDate ≠ .undefined

/-- Expected result record of the concrete `createUserDocument` run used
as a witness: one stripped attribute (`bio`), two write attempts. -/
def out0C8 : CreateOut :=
  ⟨.success ⟨"u1", "", "", [("name", Value.str "A")]⟩, 2,
   ["name", "avatar", "website", "location", "pronouns", "availability",
    "skills", "socialLinks"], ["bio"]⟩

/-! ## Helper lemmas -/

theorem jsOr_falsy {a : Value} (b : Value) (h : truthy a = false) : jsOr a b = b := by
  simp [jsOr, h]

theorem jsOr_truthy {a : Value} (b : Value) (h : truthy a = true) : jsOr a b = a := by
  simp [jsOr, h]

theorem jsOr_str_cases (v : Value) (d : String) :
    isStrB (jsOr v (.str d)) = true ∨ jsOr v (.str d) = v := by
  cases h : truthy v
  · left; rw [jsOr_falsy _ h]; rfl
  · right; exact jsOr_truthy _ h

theorem jsOr_str_ne_undefined (v : Value) (d : String) : jsOr v (.str d) ≠ .undefined := by
  cases h : truthy v
  · rw [jsOr_falsy _ h]; intro he; exact Value.noConfusion he
  · rw [jsOr_truthy _ h]; intro he; rw [he] at h; simp [truthy] at h

theorem jsOr_chain_cases (v w : Value) (d : String) :
    isStrB (jsOr v (jsOr w (.str d))) = true ∨
    jsOr v (jsOr w (.str d)) = v ∨ jsOr v (jsOr w (.str d)) = w := by
  cases h : truthy v
  · rw [jsOr_falsy _ h]
    rcases jsOr_str_cases w d with h2 | h2
    · exact Or.inl h2
    · exact Or.inr (Or.inr h2)
  · exact Or.inr (Or.inl (jsOr_truthy _ h))

theorem jsOr_chain_ne_undefined (v w : Value) (d : String) :
    jsOr v (jsOr w (.str d)) ≠ .undefined := by
  cases h : truthy v
  · rw [jsOr_falsy _ h]; exact jsOr_str_ne_undefined w d
  · rw [jsOr_truthy _ h]; intro he; rw [he] at h; simp [truthy] at h

theorem jsOr_chain_empty_iff (a b : Value) :
    jsOr a (jsOr b (.str "")) = .str "" ↔ truthy a = false ∧ truthy b = false := by
  cases ha : truthy a
  · rw [jsOr_falsy _ ha]
    cases hb : truthy b
    · rw [jsOr_falsy _ hb]; simp
    · rw [jsOr_truthy _ hb]
      constructor
      · intro h; rw [h] at hb; simp [truthy] at hb
      · rintro ⟨_, h2⟩; simp at h2
  · rw [jsOr_truthy _ ha]
    constructor
    · intro h; rw [h] at ha; simp [truthy] at ha
    · rintro ⟨h1, _⟩; simp at h1

theorem toStringArray_not_arr {v : Value} (h : isArrB v = false) :
    toStringArray v = [] := by
  cases v <;> simp_all [toStringArray, isArrB]

theorem normalizeSocialLinks_undefined : normalizeSocialLinks .undefined = [] := by
  simp [normalizeSocialLinks, truthy]

theorem isStrB_jsOr_two_str (a b : String) :
    isStrB (jsOr (.str a) (.str b)) = true := by
  cases h : truthy (Value.str a) <;> simp [jsOr, h, isStrB]

theorem coverImage_cases (v : Value) (L : List String) :
    isStrB (jsOr v (jsOr (headValue L) (.str ""))) = true ∨
    jsOr v (jsOr (headValue L) (.str "")) = v := by
  cases h : truthy v
  · left
    rw [jsOr_falsy _ h]
    cases L
    · simp [headValue, jsOr, truthy, isStrB]
    · exact isStrB_jsOr_two_str _ _
  · right; exact jsOr_truthy _ h

theorem coverImage_ne_undefined (v : Value) (L : List String) :
    jsOr v (jsOr (headValue L) (.str "")) ≠ .undefined := by
  cases h : truthy v
  · rw [jsOr_falsy _ h]; exact jsOr_str_ne_undefined _ _
  · rw [jsOr_truthy _ h]; intro he; rw [he] at h; simp [truthy] at h

theorem mapUser_absentDefaults (doc : Doc) : userAbsentDefaults doc := by
  unfold userAbsentDefaults
  refine ⟨?_, ?_, ?_, ?_, ?_, ?_, ?_, ?_, ?_, ?_, ?_⟩
  all_goals intro h
  all_goals first
    | (simp [mapUserDocument]; exact toStringArray_not_arr h)
    | (simp [mapUserDocument, h]; exact normalizeSocialLinks_undefined)
    | simp [mapUserDocument, h, jsOr, truthy]

theorem mapUser_passthrough (doc : Doc) : userPassthrough doc := by
  unfold userPassthrough
  refine ⟨?_, ?_, ?_, ?_, ?_, ?_, ?_, ?_, ?_⟩
  all_goals (simp only [mapUserDocument]; exact jsOr_str_cases _ _)

theorem mapUser_total (doc : Doc) : userTotal doc := by
  unfold userTotal
  refine ⟨?_, ?_, ?_, ?_, ?_, ?_, ?_, ?_, ?_⟩
  all_goals (simp only [mapUserDocument]; exact jsOr_str_ne_undefined _ _)

theorem mapProject_absentDefaults (doc : Doc) : projectAbsentDefaults doc := by
  unfold projectAbsentDefaults
  refine ⟨?_, ?_, ?_, ?_, ?_, ?_, ?_, ?_, ?_⟩
  · intro h; simp [mapProjectDoc, h, jsOr, truthy]
  · intro h; simp [mapProjectDoc, h, jsOr, truthy]
  · intro h; simp [mapProjectDoc, h, jsOr, truthy]
  · intro h; simp [mapProjectDoc, h, jsOr, truthy]
  · intro h; simp [mapProjectDoc, h, jsOr, truthy]
  · intro h; simp [mapProjectDoc, h, jsOr, truthy]
  · intro h; simp [mapProjectDoc, h, jsOr, truthy]
  · intro h1 h2; constructor
    · simp [mapProjectDoc, h1, h2, jsOr, truthy]
    · simp [mapProjectDoc, h1, h2, jsOr, truthy]
  · intro h1 h2; simp [mapProjectDoc, h1, h2, toStringArray, headValue, jsOr, truthy]

theorem mapProject_coercions (doc : Doc) : projectCoercions doc := by
  unfold projectCoercions
  refine ⟨?_, ?_, ?_, ?_, ?_, ?_, ?_, ?_, ?_, ?_⟩
  · intro h; simp only [mapProjectDoc]; exact toStringArray_not_arr h
  · intro h; simp only [mapProjectDoc]; exact toStringArray_not_arr h
  · intro h; simp only [mapProjectDoc]; exact toStringArray_not_arr h
  · intro h; simp only [mapProjectDoc]; exact toStringArray_not_arr h
  · intro h; simp only [mapProjectDoc]; exact toStringArray_not_arr h
  · intro h; simp only [mapProjectDoc]; exact toStringArray_not_arr h
  · intro h
    cases hv : getAttr doc "order"
    all_goals simp [mapProjectDoc, hv]
    rw [hv] at h; simp [isNumB] at h
  · simp [mapProjectDoc]
  · intro h; simp [mapProjectDoc, h]
  · intro h
    cases hv : getAttr doc "isPublic"
    all_goals simp [mapProjectDoc, hv]
    rw [hv] at h; exact absurd rfl h

theorem mapProject_passthrough (doc : Doc) : projectPassthrough doc := by
  unfold projectPassthrough
  refine ⟨?_, ?_, ?_, ?_, ?_, ?_, ?_, ?_, ?_, ?_⟩
  · simp only [mapProjectDoc]; exact jsOr_str_cases _ _
  · simp only [mapProjectDoc]; exact jsOr_str_cases _ _
  · simp only [mapProjectDoc]; exact jsOr_str_cases _ _
  · simp only [mapProjectDoc]; exact jsOr_chain_cases _ _ _
  · simp only [mapProjectDoc]; exact jsOr_chain_cases _ _ _
  · simp only [mapProjectDoc]; exact coverImage_cases _ _
  · simp only [mapProjectDoc]; exact jsOr_str_cases _ _
  · simp only [mapProjectDoc]; exact jsOr_str_cases _ _
  · simp only [mapProjectDoc]; exact jsOr_str_cases _ _
  · simp only [mapProjectDoc]; exact jsOr_str_cases _ _

theorem mapProject_total (doc : Doc) : projectTotal doc := by
  unfold projectTotal
  refine ⟨?_, ?_, ?_, ?_, ?_, ?_, ?_, ?_, ?_, ?_⟩
  · simp only [mapProjectDoc]; exact jsOr_str_ne_undefined _ _
  · simp only [mapProjectDoc]; exact jsOr_str_ne_undefined _ _
  · simp only [mapProjectDoc]; exact jsOr_str_ne_undefined _ _
  · simp only [mapProjectDoc]; exact jsOr_chain_ne_undefined _ _ _
  · simp only [mapProjectDoc]; exact jsOr_chain_ne_undefined _ _ _
  · simp only [mapProjectDoc]; exact coverImage_ne_undefined _ _
  · simp only [mapProjectDoc]; exact jsOr_str_ne_undefined _ _
  · simp only [mapProjectDoc]; exact jsOr_str_ne_undefined _ _
  · simp only [mapProjectDoc]; exact jsOr_str_ne_undefined _ _
  · simp only [mapProjectDoc]; exact jsOr_str_ne_undefined _ _

/-! ## Claim C4 -/

/-- Claim C4, counterexample to the claim as stated: for the document
`docBadC4`, whose `name` attribute holds the truthy non-string `5` and
whose `category` attribute is absent, `mapUserDocument` passes the number
through into the string-typed `name` field (so not every declared field is
type-correct), and `mapProjectDoc` defaults the absent string field
`category` to `uncategorized`, not to the empty string. -/
theorem claim_C4_cex :
    typeCorrectUserValuesB (mapUserDocument docBadC4) = false ∧
    (mapUserDocument docBadC4).name = Value.num 5 ∧
    lookupAttr docBadC4.attrs "category" = none ∧
    (mapProjectDoc docBadC4).category ≠ Value.str "" ∧
    (mapProjectDoc docBadC4).category = Value.str "uncategorized" := by
  refine ⟨by decide, by decide, by decide, by decide, by decide⟩

/-- Claim C4 (amended): for every backend document, of any shape, the
record mappers never raise (they are total functions here) and produce an
entity with no field left `undefined`; absent string fields become the
empty string - except that `category` defaults to `uncategorized`,
`coverImage` falls back to the first image, and `userId`/`createdBy` fall
back to each other; absent or non-list list fields become the empty list,
absent mapping fields become the empty mapping, non-numeric numeric
fields become zero, and boolean fields are coerced with `Boolean()` (an
absent `isPublic` reading as true); string-typed fields are strings
except that a truthy non-string upstream value passes through
unchanged. -/
theorem claim_C4 (doc : Doc) :
    userAbsentDefaults doc ∧ userPassthrough doc ∧ userTotal doc ∧
    projectAbsentDefaults doc ∧ projectCoercions doc ∧
    projectPassthrough doc ∧ projectTotal doc :=
  ⟨mapUser_absentDefaults doc, mapUser_passthrough doc, mapUser_total doc,
   mapProject_absentDefaults doc, mapProject_coercions doc,
   mapProject_passthrough doc, mapProject_total doc⟩

/-- Witness for claim C4 at the attribute-less document `docW10`. -/
theorem claim_C4_witness :
    (mapUserDocument docW10).name = Value.str "" ∧
    (mapProjectDoc docW10).category = Value.str "uncategorized" ∧
    (mapProjectDoc docW10).order = 0 ∧
    (mapProjectDoc docW10).isPublic = true := by
  obtain ⟨hu, _, _, hp, hc, _, _⟩ := claim_C4 docW10
  unfold userAbsentDefaults at hu
  unfold projectAbsentDefaults at hp
  unfold projectCoercions at hc
  exact ⟨hu.1 rfl, hp.2.2.1 rfl, hc.2.2.2.2.2.2.1 rfl, hc.2.2.2.2.2.2.2.2.1 rfl⟩

/-! ## Claim C10 -/

/-- Claim C10: in `mapProjectDoc`, `userId` falls back to `createdBy` when
the `userId` attribute is absent and `createdBy` falls back to `userId`
when the `createdBy` attribute is absent; consequently the mapped `userId`
is the empty string exactly when the mapped `createdBy` is. -/
theorem claim_C10 (doc : Doc) :
    ((mapProjectDoc doc).userId = Value.str "" ↔
      (mapProjectDoc doc).createdBy = Value.str "") ∧
    (getAttr doc "userId" = .undefined →
      (mapProjectDoc doc).userId = jsOr (getAttr doc "createdBy") (.str "")) ∧
    (getAttr doc "createdBy" = .undefined →
      (mapProjectDoc doc).createdBy = jsOr (getAttr doc "userId") (.str "")) := by
  refine ⟨?_, ?_, ?_⟩
  · simp only [mapProjectDoc]
    rw [jsOr_chain_empty_iff, jsOr_chain_empty_iff]
    exact and_comm
  · intro h; simp only [mapProjectDoc]; rw [h]; exact jsOr_falsy _ rfl
  · intro h; simp only [mapProjectDoc]; rw [h]; exact jsOr_falsy _ rfl

/-- Witness for claim C10 at documents with the respective attribute
absent. -/
theorem claim_C10_witness :
    (mapProjectDoc docW10b).userId = jsOr (getAttr docW10b "createdBy") (.str "") ∧
    (mapProjectDoc docW10).createdBy = jsOr (getAttr docW10 "userId") (.str "") ∧
    ((mapProjectDoc docW10).userId = Value.str "" ↔
      (mapProjectDoc docW10).createdBy = Value.str "") :=
  ⟨(claim_C10 docW10b).2.1 rfl, (claim_C10 docW10).2.2 rfl, (claim_C10 docW10).1⟩

/-! ## Claim C5 -/

theorem mem_stableInsert (le : α → α → Bool) (x a : α) (l : List α) :
    a ∈ stableInsert le x l ↔ a = x ∨ a ∈ l := by
  induction l with
  | nil => simp [stableInsert]
  | cons h t ih =>
    simp only [stableInsert]
    by_cases hc : le x h = true
    · simp [hc]
    · simp [hc, ih]; tauto

theorem mem_stableSortBy (le : α → α → Bool) (a : α) (l : List α) :
    a ∈ stableSortBy le l ↔ a ∈ l := by
  induction l with
  | nil => simp [stableSortBy]
  | cons h t ih => simp [stableSortBy, mem_stableInsert, ih]

/-- Claim C5, counterexample to the claim as stated: the comparator is not
a strict total order - the two distinct projects `pTieA` and `pTieB`
(different titles) agree on display order and creation time, so they
compare equal without being identical. -/
theorem claim_C5_cex :
    projectCmp gtLen pTieA pTieB = 0 ∧ pTieA ≠ pTieB :=
  ⟨by decide, by decide⟩

/-- Claim C5 (amended): the comparator orders by ascending display order
with descending creation timestamp as tie-break and is total, but not
strict - records agreeing on order and creation time compare equal even
when distinct; on records with orders 3, 1, 1 where the two tied at 1 were
created at times 1 < 2, every listing order (all six input permutations)
sorts to newer-tied, older-tied, order-3. -/
theorem claim_C5 :
    (∀ (gt : String → Int) (a b : ProjectE),
      a.order < b.order → projectCmp gt a b < 0) ∧
    (∀ (gt : String → Int) (a b : ProjectE),
      b.order < a.order → 0 < projectCmp gt a b) ∧
    (∀ (gt : String → Int) (a b : ProjectE),
      a.order = b.order → projectCmp gt a b = gt b.createdAt - gt a.createdAt) ∧
    sortProjects gtLen [pOrd3, pOld1, pNew1] = [pNew1, pOld1, pOrd3] ∧
    sortProjects gtLen [pOrd3, pNew1, pOld1] = [pNew1, pOld1, pOrd3] ∧
    sortProjects gtLen [pOld1, pOrd3, pNew1] = [pNew1, pOld1, pOrd3] ∧
    sortProjects gtLen [pOld1, pNew1, pOrd3] = [pNew1, pOld1, pOrd3] ∧
    sortProjects gtLen [pNew1, pOrd3, pOld1] = [pNew1, pOld1, pOrd3] ∧
    sortProjects gtLen [pNew1, pOld1, pOrd3] = [pNew1, pOld1, pOrd3] := by
  refine ⟨?_, ?_, ?_, by decide, by decide, by decide, by decide, by decide, by decide⟩
  · intro gt a b h
    have hne : a.order ≠ b.order := ne_of_lt h
    simp [projectCmp, hne]; omega
  · intro gt a b h
    have hne : a.order ≠ b.order := (ne_of_lt h).symm
    simp [projectCmp, hne]; omega
  · intro gt a b h
    simp [projectCmp, h]

/-- Witness for claim C5 at concrete projects. -/
theorem claim_C5_witness :
    projectCmp gtLen pOld1 pOrd3 < 0 ∧ 0 < projectCmp gtLen pOrd3 pOld1 ∧
    projectCmp gtLen pTieB pTieA = gtLen pTieA.createdAt - gtLen pTieB.createdAt :=
  ⟨claim_C5.1 gtLen pOld1 pOrd3 (by decide),
   claim_C5.2.1 gtLen pOrd3 pOld1 (by decide),
   claim_C5.2.2.1 gtLen pTieB pTieA (by decide)⟩

/-! ## Claim C6 -/

/-- Claim C6: with a (truthy) owner identifier, `getProjects` returns
exactly the mapped documents whose stored `userId` equals that owner,
regardless of the `isPublic` flag; without one it returns exactly the
mapped documents whose stored `isPublic` flag is true, excluding private
documents of every owner.  The backend list call is modelled from the
spec (equality filters over opaque records). -/
theorem claim_C6 (gt : String → Int) (store : List Doc) (u : String) (hu : u ≠ "") :
    (∀ q, q ∈ getProjects gt store (some u) ↔
       ∃ d, d ∈ store ∧ getAttr d "userId" = Value.str u ∧ q = mapProjectDoc d) ∧
    (∀ q, q ∈ getProjects gt store none ↔
       ∃ d, d ∈ store ∧ getAttr d "isPublic" = Value.bool true ∧ q = mapProjectDoc d) := by
  constructor
  · intro q
    simp only [getProjects, sortProjects]
    rw [mem_stableSortBy]
    simp only [List.mem_map, listDocuments, List.mem_filter, hu]
    constructor
    · rintro ⟨d, ⟨hd, hq⟩, rfl⟩
      refine ⟨d, hd, ?_, rfl⟩
      simpa [matchesQuery, hu] using hq
    · rintro ⟨d, hd, hq, rfl⟩
      refine ⟨d, ⟨hd, ?_⟩, rfl⟩
      simpa [matchesQuery, hu] using hq
  · intro q
    simp only [getProjects, sortProjects]
    rw [mem_stableSortBy]
    simp only [List.mem_map, listDocuments, List.mem_filter]
    constructor
    · rintro ⟨d, ⟨hd, hq⟩, rfl⟩
      refine ⟨d, hd, ?_, rfl⟩
      simpa [matchesQuery] using hq
    · rintro ⟨d, hd, hq, rfl⟩
      refine ⟨d, ⟨hd, ?_⟩, rfl⟩
      simpa [matchesQuery] using hq

/-- Witness for claim C6: the private project of alice appears in the
owner-scoped listing and the public project of bob in the gallery
listing. -/
theorem claim_C6_witness :
    mapProjectDoc d6a ∈ getProjects gtLen store0 (some "alice") ∧
    mapProjectDoc d6b ∈ getProjects gtLen store0 none := by
  have h := claim_C6 gtLen store0 "alice" (by decide)
  exact ⟨(h.1 (mapProjectDoc d6a)).mpr ⟨d6a, by decide, by decide, rfl⟩,
         (h.2 (mapProjectDoc d6b)).mpr ⟨d6b, by decide, by decide, rfl⟩⟩

/-! ## Write-loop lemmas -/

theorem length_eraseKey_lt {p : Payload} {a : String} (h : containsKey p a = true) :
    (eraseKey p a).length < p.length := by
  induction p with
  | nil => simp [containsKey] at h
  | cons kv t ih =>
    by_cases hk : kv.1 = a
    · simp only [eraseKey, List.filter_cons]
      simp [hk]
      exact Nat.lt_succ_of_le (List.length_filter_le _ t)
    · have ht : containsKey t a = true := by
        simpa [containsKey, hk] using h
      simp only [eraseKey, List.filter_cons]
      simp [hk]
      simpa [eraseKey] using ih ht

theorem createUserDocument_total (respond : Payload → WriteResp)
    (hwf : ∀ q a, respond q = .unknownAttr a → containsKey q a = true) :
    ∀ (fuel : Nat) (fields : List String) (p : Payload), p.length < fuel →
      ∃ out, createUserDocument respond fields fuel p = some out ∧
        out.attempts ≤ p.length + 1 := by
  intro fuel
  induction fuel with
  | zero => intro fields p h; exact absurd h (Nat.not_lt_zero _)
  | succ f ih =>
    intro fields p hp
    cases hr : respond p with
    | ok d =>
      exact ⟨⟨.success d, 1, fields, []⟩, by simp [createUserDocument, hr],
        by show 1 ≤ p.length + 1; omega⟩
    | failed msg =>
      exact ⟨⟨.backendFailed msg, 1, fields, []⟩, by simp [createUserDocument, hr],
        by show 1 ≤ p.length + 1; omega⟩
    | unknownAttr a =>
      have hlen : (eraseKey p a).length < p.length := length_eraseKey_lt (hwf p a hr)
      by_cases hm : a ∈ mandatoryCreateFields
      · exact ⟨⟨.unknownMandatory a, 1, fields, []⟩, by simp [createUserDocument, hr, hm],
          by show 1 ≤ p.length + 1; omega⟩
      · by_cases he : eraseKey p a = []
        · refine ⟨⟨.noValidFields, 1, fields.filter (fun x => x ≠ a), [a]⟩, ?_,
            by show 1 ≤ p.length + 1; omega⟩
          simp [createUserDocument, hr, hm, he]
        · obtain ⟨out, hout, hatt⟩ :=
            ih (fields.filter (fun x => x ≠ a)) (eraseKey p a) (by omega)
          refine ⟨⟨out.res, out.attempts + 1, out.fields, a :: out.stripped⟩, ?_,
            by show out.attempts + 1 ≤ p.length + 1; omega⟩
          simp only [ne_eq, decide_not] at hout
          simp [createUserDocument, hr, hm, he, hout]

theorem updateProfileLoop_total (respond : Payload → WriteResp)
    (hwf : ∀ q a, respond q = .unknownAttr a → containsKey q a = true) :
    ∀ (fuel : Nat) (existing : Option Doc) (fields : List String) (p : Payload),
      p.length < fuel →
      ∃ out, updateProfileLoop respond existing fields fuel p = some out ∧
        out.attempts ≤ p.length + 1 := by
  intro fuel
  induction fuel with
  | zero => intro existing fields p h; exact absurd h (Nat.not_lt_zero _)
  | succ f ih =>
    intro existing fields p hp
    by_cases hp0 : p = []
    · cases hex : existing with
      | some d =>
        exact ⟨⟨.success (mapUserDocument d), 0, fields, []⟩,
          by simp [updateProfileLoop, hp0, hex], by show 0 ≤ p.length + 1; omega⟩
      | none =>
        exact ⟨⟨.getDocFailed "Document with the requested ID could not be found.", 0, fields, []⟩,
          by simp [updateProfileLoop, hp0, hex], by show 0 ≤ p.length + 1; omega⟩
    · cases hr : respond p with
      | ok d =>
        exact ⟨⟨.success (mapUserDocument d), 1, fields, []⟩,
          by simp [updateProfileLoop, hp0, hr], by show 1 ≤ p.length + 1; omega⟩
      | failed msg =>
        exact ⟨⟨.backendFailed msg, 1, fields, []⟩,
          by simp [updateProfileLoop, hp0, hr], by show 1 ≤ p.length + 1; omega⟩
      | unknownAttr a =>
        have hlen : (eraseKey p a).length < p.length := length_eraseKey_lt (hwf p a hr)
        obtain ⟨out, hout, hatt⟩ :=
          ih existing (fields.filter (fun x => x ≠ a)) (eraseKey p a) (by omega)
        refine ⟨⟨out.res, out.attempts + 1, out.fields, a :: out.stripped⟩, ?_,
          by show out.attempts + 1 ≤ p.length + 1; omega⟩
        simp only [ne_eq, decide_not] at hout
        simp [updateProfileLoop, hp0, hr, hout]

/-! ## Claim C1 -/

/-- Claim C1: for every write payload with `n` fields, both schema-drift
writers (document create in `createUserDocument` and document update in
`updateProfile`) terminate within fuel `n + 1` - i.e. perform at most
`n + 1` backend write attempts before success or terminal failure -
provided each unknown-attribute error names an attribute of the attempted
payload (each such failure then removes that attribute before
retrying). -/
theorem claim_C1 :
    (∀ (respond : Payload → WriteResp) (fields : List String) (p : Payload),
      (∀ q a, respond q = .unknownAttr a → containsKey q a = true) →
      (createUserDocument respond fields (p.length + 1) p).isSome = true ∧
      ((createUserDocument respond fields (p.length + 1) p).map CreateOut.attempts).getD 0
        ≤ p.length + 1) ∧
    (∀ (respond : Payload → WriteResp) (existing : Option Doc) (fields : List String)
        (p : Payload),
      (∀ q a, respond q = .unknownAttr a → containsKey q a = true) →
      (updateProfileLoop respond existing fields (p.length + 1) p).isSome = true ∧
      ((updateProfileLoop respond existing fields (p.length + 1) p).map UpdateOut.attempts).getD 0
        ≤ p.length + 1) := by
  constructor
  · intro respond fields p hwf
    obtain ⟨out, hout, hatt⟩ :=
      createUserDocument_total respond hwf (p.length + 1) fields p (by omega)
    rw [hout]
    exact ⟨rfl, by simpa using hatt⟩
  · intro respond existing fields p hwf
    obtain ⟨out, hout, hatt⟩ :=
      updateProfileLoop_total respond hwf (p.length + 1) existing fields p (by omega)
    rw [hout]
    exact ⟨rfl, by simpa using hatt⟩

theorem respondFirstKey_wf :
    ∀ q a, respondFirstKey q = .unknownAttr a → containsKey q a = true := by
  intro q a h
  cases q with
  | nil => simp [respondFirstKey] at h
  | cons kv t =>
    simp [respondFirstKey] at h
    simp [containsKey, h]

/-- Witness for claim C1: a single-field payload against a backend that
rejects the first key settles within two attempts in both writers. -/
theorem claim_C1_witness :
    (createUserDocument respondFirstKey USER_UPDATE_FIELDS 2 [("bio", Value.str "x")]).isSome = true ∧
    ((createUserDocument respondFirstKey USER_UPDATE_FIELDS 2
        [("bio", Value.str "x")]).map CreateOut.attempts).getD 0 ≤ 2 ∧
    (updateProfileLoop respondFirstKey (some doc0) USER_UPDATE_FIELDS 2
        [("bio", Value.str "x")]).isSome = true := by
  have h1 := claim_C1.1 respondFirstKey USER_UPDATE_FIELDS
    [("bio", Value.str "x")] respondFirstKey_wf
  have h2 := claim_C1.2 respondFirstKey (some doc0) USER_UPDATE_FIELDS
    [("bio", Value.str "x")] respondFirstKey_wf
  exact ⟨h1.1, h1.2, h2.1⟩

/-! ## Claim C2 -/

/-- Claim C2, counterexample to the claim as stated: when the backend
reports the mandatory identity field `name` unknown during a profile
update, `updateProfile` does not propagate the failure - it strips `name`,
retries, and (the payload being empty) returns the existing document
mapped.  Only `createUserDocument` has the mandatory-field check. -/
theorem claim_C2_cex :
    updateProfileLoop respondNameUnknown (some doc0) USER_UPDATE_FIELDS 2
      [("name", Value.str "Ada")] =
      some ⟨.success (mapUserDocument doc0), 1,
        ["bio", "avatar", "website", "location", "pronouns", "availability",
         "skills", "socialLinks"], ["name"]⟩ ∧
    mandatoryCreateFields.contains "name" = true :=
  ⟨by decide, by decide⟩

/-- Claim C2 (amended): the mandatory-field rule holds for document
creation only - `createUserDocument` rethrows an unknown-attribute error
naming `name`, `email` or `createdBy` without stripping or retrying, and
strips-and-retries non-mandatory unknown attributes; the `updateProfile`
loop has no mandatory-field check and strips-and-retries every unknown
attribute, mandatory ones included. -/
theorem claim_C2 :
    (∀ (respond : Payload → WriteResp) (fields : List String) (fuel : Nat)
        (p : Payload) (a : String),
      respond p = .unknownAttr a → a ∈ mandatoryCreateFields →
      createUserDocument respond fields (fuel + 1) p =
        some ⟨.unknownMandatory a, 1, fields, []⟩) ∧
    (∀ (respond : Payload → WriteResp) (fields : List String) (fuel : Nat)
        (p : Payload) (a : String),
      respond p = .unknownAttr a → a ∉ mandatoryCreateFields → eraseKey p a ≠ [] →
      createUserDocument respond fields (fuel + 1) p =
        Option.map (fun out => ⟨out.res, out.attempts + 1, out.fields, a :: out.stripped⟩)
          (createUserDocument respond (fields.filter (fun f => f ≠ a)) fuel (eraseKey p a))) ∧
    (∀ (respond : Payload → WriteResp) (existing : Option Doc) (fields : List String)
        (fuel : Nat) (p : Payload) (a : String),
      p ≠ [] → respond p = .unknownAttr a →
      updateProfileLoop respond existing fields (fuel + 1) p =
        Option.map (fun out => ⟨out.res, out.attempts + 1, out.fields, a :: out.stripped⟩)
          (updateProfileLoop respond existing (fields.filter (fun f => f ≠ a)) fuel
            (eraseKey p a))) := by
  refine ⟨?_, ?_, ?_⟩
  · intro respond fields fuel p a hr hm
    simp [createUserDocument, hr, hm]
  · intro respond fields fuel p a hr hm he
    cases hrec : createUserDocument respond (fields.filter (fun f => f ≠ a)) fuel (eraseKey p a) with
    | none =>
      simp only [ne_eq, decide_not] at hrec
      simp [createUserDocument, hr, hm, he, hrec]
    | some out =>
      simp only [ne_eq, decide_not] at hrec
      simp [createUserDocument, hr, hm, he, hrec]
  · intro respond existing fields fuel p a hp hr
    cases hrec : updateProfileLoop respond existing (fields.filter (fun f => f ≠ a)) fuel
        (eraseKey p a) with
    | none =>
      simp only [ne_eq, decide_not] at hrec
      simp [updateProfileLoop, hp, hr, hrec]
    | some out =>
      simp only [ne_eq, decide_not] at hrec
      simp [updateProfileLoop, hp, hr, hrec]

/-- Witness for claim C2: the create loop rethrows on the mandatory
`name`, while the update loop strips `name` and recurses. -/
theorem claim_C2_witness :
    createUserDocument respondNameUnknown USER_UPDATE_FIELDS 2 [("name", Value.str "Ada")] =
      some ⟨.unknownMandatory "name", 1, USER_UPDATE_FIELDS, []⟩ ∧
    updateProfileLoop respondNameUnknown (some doc0) USER_UPDATE_FIELDS 2
        [("name", Value.str "Ada")] =
      Option.map (fun out => ⟨out.res, out.attempts + 1, out.fields, "name" :: out.stripped⟩)
        (updateProfileLoop respondNameUnknown (some doc0)
          (USER_UPDATE_FIELDS.filter (fun f => f ≠ "name")) 1
          (eraseKey [("name", Value.str "Ada")] "name")) :=
  ⟨claim_C2.1 respondNameUnknown USER_UPDATE_FIELDS 1 [("name", Value.str "Ada")] "name"
     rfl (by decide),
   claim_C2.2.2 respondNameUnknown (some doc0) USER_UPDATE_FIELDS 1
     [("name", Value.str "Ada")] "name" (by decide) rfl⟩

/-! ## Claim C3 -/

/-- Claim C3, counterexample to the claim as stated: when stripping
empties an update payload before any attempt succeeds, `updateProfile`
does not fail with a terminal no-valid-fields error - it reads the
existing document back and returns it mapped (a success value). -/
theorem claim_C3_cex :
    eraseKey [("bio", Value.str "hi")] "bio" = [] ∧
    updateProfileLoop respondBioUnknown (some doc0) USER_UPDATE_FIELDS 2
      [("bio", Value.str "hi")] =
      some ⟨.success (mapUserDocument doc0), 1,
        ["name", "avatar", "website", "location", "pronouns", "availability",
         "skills", "socialLinks"], ["bio"]⟩ :=
  ⟨by decide, by decide⟩

/-- Claim C3 (amended): `createUserDocument` fails with the terminal
no-valid-fields error when stripping empties the payload; the
`updateProfile` loop instead degenerates into a read - an empty remaining
payload (initially, or after stripping) returns the existing document
mapped rather than an error. -/
theorem claim_C3 :
    (∀ (respond : Payload → WriteResp) (fields : List String) (fuel : Nat)
        (p : Payload) (a : String),
      respond p = .unknownAttr a → a ∉ mandatoryCreateFields → eraseKey p a = [] →
      createUserDocument respond fields (fuel + 1) p =
        some ⟨.noValidFields, 1, fields.filter (fun f => f ≠ a), [a]⟩) ∧
    (∀ (respond : Payload → WriteResp) (d : Doc) (fields : List String) (fuel : Nat),
      updateProfileLoop respond (some d) fields (fuel + 1) [] =
        some ⟨.success (mapUserDocument d), 0, fields, []⟩) ∧
    (∀ (respond : Payload → WriteResp) (d : Doc) (fields : List String) (fuel : Nat)
        (p : Payload) (a : String),
      p ≠ [] → respond p = .unknownAttr a → eraseKey p a = [] →
      updateProfileLoop respond (some d) fields (fuel + 2) p =
        some ⟨.success (mapUserDocument d), 1, fields.filter (fun f => f ≠ a), [a]⟩) := by
  refine ⟨?_, ?_, ?_⟩
  · intro respond fields fuel p a hr hm he
    simp [createUserDocument, hr, hm, he]
  · intro respond d fields fuel
    simp [updateProfileLoop]
  · intro respond d fields fuel p a hp hr he
    simp [updateProfileLoop, hp, hr, he]

/-- Witness for claim C3 at a one-field payload the backend rejects. -/
theorem claim_C3_witness :
    createUserDocument respondBioUnknown USER_UPDATE_FIELDS 1 [("bio", Value.str "hi")] =
      some ⟨.noValidFields, 1, USER_UPDATE_FIELDS.filter (fun f => f ≠ "bio"), ["bio"]⟩ ∧
    updateProfileLoop respondBioUnknown (some doc0) USER_UPDATE_FIELDS 1 [] =
      some ⟨.success (mapUserDocument doc0), 0, USER_UPDATE_FIELDS, []⟩ ∧
    updateProfileLoop respondBioUnknown (some doc0) USER_UPDATE_FIELDS 2
        [("bio", Value.str "hi")] =
      some ⟨.success (mapUserDocument doc0), 1,
        USER_UPDATE_FIELDS.filter (fun f => f ≠ "bio"), ["bio"]⟩ :=
  ⟨claim_C3.1 respondBioUnknown USER_UPDATE_FIELDS 0 [("bio", Value.str "hi")] "bio"
     rfl (by decide) (by decide),
   claim_C3.2.1 respondBioUnknown doc0 USER_UPDATE_FIELDS 0,
   claim_C3.2.2 respondBioUnknown doc0 USER_UPDATE_FIELDS 0 [("bio", Value.str "hi")] "bio"
     (by decide) rfl (by decide)⟩

/-! ## Claim C8 -/

theorem createUserDocument_inv (respond : Payload → WriteResp) :
    ∀ (fuel : Nat) (fields : List String) (p : Payload) (out : CreateOut),
      createUserDocument respond fields fuel p = some out →
      (∀ x, x ∈ out.fields → x ∈ fields) ∧ (∀ a, a ∈ out.stripped → a ∉ out.fields) := by
  intro fuel
  induction fuel with
  | zero => intro fields p out h; simp [createUserDocument] at h
  | succ f ih =>
    intro fields p out h
    cases hr : respond p with
    | ok d =>
      simp [createUserDocument, hr] at h
      subst h
      exact ⟨fun x hx => hx, by simp⟩
    | failed msg =>
      simp [createUserDocument, hr] at h
      subst h
      exact ⟨fun x hx => hx, by simp⟩
    | unknownAttr a =>
      by_cases hm : a ∈ mandatoryCreateFields
      · simp [createUserDocument, hr, hm] at h
        subst h
        exact ⟨fun x hx => hx, by simp⟩
      · by_cases he : eraseKey p a = []
        · simp [createUserDocument, hr, hm, he] at h
          subst h
          constructor
          · intro x hx; exact List.mem_of_mem_filter hx
          · intro b hb
            simp at hb
            subst hb
            intro hcontra
            have := List.of_mem_filter hcontra
            simp at this
        · cases hrec : createUserDocument respond (fields.filter (fun x => x ≠ a)) f
              (eraseKey p a) with
          | none =>
            simp only [ne_eq, decide_not] at hrec
            simp [createUserDocument, hr, hm, he, hrec] at h
          | some out2 =>
            obtain ⟨hsub, hnot⟩ := ih (fields.filter (fun x => x ≠ a)) (eraseKey p a) out2 hrec
            simp only [ne_eq, decide_not] at hrec
            simp [createUserDocument, hr, hm, he, hrec] at h
            subst h
            constructor
            · intro x hx; exact List.mem_of_mem_filter (hsub x hx)
            · intro b hb
              simp at hb
              rcases hb with rfl | hb
              · intro hcontra
                have h2 := hsub b hcontra
                have := List.of_mem_filter h2
                simp at this
              · exact hnot b hb

theorem updateProfileLoop_inv (respond : Payload → WriteResp) (existing : Option Doc) :
    ∀ (fuel : Nat) (fields : List String) (p : Payload) (out : UpdateOut),
      updateProfileLoop respond existing fields fuel p = some out →
      (∀ x, x ∈ out.fields → x ∈ fields) ∧ (∀ a, a ∈ out.stripped → a ∉ out.fields) := by
  intro fuel
  induction fuel with
  | zero => intro fields p out h; simp [updateProfileLoop] at h
  | succ f ih =>
    intro fields p out h
    by_cases hp0 : p = []
    · cases hex : existing with
      | some d =>
        simp [updateProfileLoop, hp0, hex] at h
        subst h
        exact ⟨fun x hx => hx, by simp⟩
      | none =>
        simp [updateProfileLoop, hp0, hex] at h
        subst h
        exact ⟨fun x hx => hx, by simp⟩
    · cases hr : respond p with
      | ok d =>
        simp [updateProfileLoop, hp0, hr] at h
        subst h
        exact ⟨fun x hx => hx, by simp⟩
      | failed msg =>
        simp [updateProfileLoop, hp0, hr] at h
        subst h
        exact ⟨fun x hx => hx, by simp⟩
      | unknownAttr a =>
        cases hrec : updateProfileLoop respond existing (fields.filter (fun x => x ≠ a)) f
            (eraseKey p a) with
        | none =>
          simp only [ne_eq, decide_not] at hrec
          simp [updateProfileLoop, hp0, hr, hrec] at h
        | some out2 =>
          obtain ⟨hsub, hnot⟩ := ih (fields.filter (fun x => x ≠ a)) (eraseKey p a) out2 hrec
          simp only [ne_eq, decide_not] at hrec
          simp [updateProfileLoop, hp0, hr, hrec] at h
          subst h
          constructor
          · intro x hx; exact List.mem_of_mem_filter (hsub x hx)
          · intro b hb
            simp at hb
            rcases hb with rfl | hb
            · intro hcontra
              have h2 := hsub b hcontra
              have := List.of_mem_filter h2
              simp at this
            · exact hnot b hb

theorem sanitize_mem_fields (fields : List String) :
    ∀ (data : List (String × Value)) (k : String) (v : Value),
      (k, v) ∈ sanitizeUserUpdateData fields data → k ∈ fields := by
  intro data
  induction data with
  | nil => intro k v h; simp [sanitizeUserUpdateData] at h
  | cons kv rest ih =>
    intro k v h
    obtain ⟨key, value⟩ := kv
    by_cases hk : key ∈ fields
    · by_cases hv : value = Value.undefined
      · rw [sanitizeUserUpdateData, if_neg (fun hcon => hcon.2 hv)] at h
        exact ih k v h
      · rw [sanitizeUserUpdateData, if_pos ⟨by simpa using hk, hv⟩] at h
        rcases List.mem_cons.mp h with heq | h2
        · have hkk : k = key := congrArg Prod.fst heq
          rw [hkk]; exact hk
        · exact ih k v h2
    · rw [sanitizeUserUpdateData, if_neg (fun hcon => hk (by simpa using hcon.1))] at h
      exact ih k v h

/-- Claim C8: once a schema-drift write (create or update) has discovered
a field unknown, that field is removed from the session's updatable-field
set (the resulting set only shrinks), and no payload sanitized against the
resulting set ever contains it again - the drift is not re-discovered. -/
theorem claim_C8 :
    (∀ (respond : Payload → WriteResp) (fields : List String) (fuel : Nat)
        (p : Payload) (out : CreateOut),
      createUserDocument respond fields fuel p = some out →
      (∀ x, x ∈ out.fields → x ∈ fields) ∧
      (∀ a, a ∈ out.stripped → ∀ (data : List (String × Value)) (k : String) (v : Value),
        (k, v) ∈ sanitizeUserUpdateData out.fields data → k ≠ a)) ∧
    (∀ (respond : Payload → WriteResp) (existing : Option Doc) (fields : List String)
        (fuel : Nat) (p : Payload) (out : UpdateOut),
      updateProfileLoop respond existing fields fuel p = some out →
      (∀ x, x ∈ out.fields → x ∈ fields) ∧
      (∀ a, a ∈ out.stripped → ∀ (data : List (String × Value)) (k : String) (v : Value),
        (k, v) ∈ sanitizeUserUpdateData out.fields data → k ≠ a)) := by
  constructor
  · intro respond fields fuel p out h
    obtain ⟨hsub, hnot⟩ := createUserDocument_inv respond fuel fields p out h
    refine ⟨hsub, ?_⟩
    intro a ha data k v hk
    have hkf : k ∈ out.fields := sanitize_mem_fields out.fields data k v hk
    intro heq
    rw [heq] at hkf
    exact hnot a ha hkf
  · intro respond existing fields fuel p out h
    obtain ⟨hsub, hnot⟩ := updateProfileLoop_inv respond existing fuel fields p out h
    refine ⟨hsub, ?_⟩
    intro a ha data k v hk
    have hkf : k ∈ out.fields := sanitize_mem_fields out.fields data k v hk
    intro heq
    rw [heq] at hkf
    exact hnot a ha hkf

/-- Witness for claim C8 at a concrete run stripping `bio`: a later
sanitized payload against the shrunk set cannot carry `bio`. -/
theorem claim_C8_witness :
    createUserDocument respondC8 USER_UPDATE_FIELDS 3
      [("name", Value.str "A"), ("bio", Value.str "b")] = some out0C8 ∧
    "bio" ∈ out0C8.stripped ∧
    ("name", Value.str "Nia") ∈
      sanitizeUserUpdateData out0C8.fields [("name", Value.str "Nia")] ∧
    "name" ≠ "bio" := by
  refine ⟨by decide, by decide, by decide, ?_⟩
  exact (claim_C8.1 respondC8 USER_UPDATE_FIELDS 3
      [("name", Value.str "A"), ("bio", Value.str "b")] out0C8 (by decide)).2
    "bio" (by decide) [("name", Value.str "Nia")] "name" (Value.str "Nia") (by decide)

/-! ## Claim C9 -/

set_option maxRecDepth 8000 in
/-- Claim C9: a profile read whose backend error says the resource does
not exist returns an empty result rather than raising -
`getUserProfile` maps a 404 to `none`, and `getCurrentUser` maps the
document-not-found message to `none`. -/
theorem claim_C9 :
    (∀ (fetch : String → FetchRes) (uid : String) (msg : String),
      fetch uid = .err 404 msg → getUserProfile fetch uid = .ok none) ∧
    (∀ (accountRes : Except (Int × String) String) (fetch : String → FetchRes)
        (accountId : String) (c : Int),
      accountRes = .ok accountId → fetch accountId = .err c docNotFoundMsg →
      getCurrentUserErr accountRes fetch = .ok none) := by
  constructor
  · intro fetch uid msg h
    simp [getUserProfile, h]
  · intro accountRes fetch accountId c h1 h2
    subst h1
    have c1 : strContains docNotFoundMsg "Missing required environment variables" = false := by
      decide
    have c2 : strContains docNotFoundMsg "Collection with the requested ID could not be found"
        = false := by decide
    have c3 : strContains docNotFoundMsg "Database with the requested ID could not be found"
        = false := by decide
    simp [getCurrentUserErr, h2, handleGetCurrentUserError, c1, c2, c3]

/-- Witness for claim C9 at a backend answering 404 everywhere. -/
theorem claim_C9_witness :
    getUserProfile fetch404 "nobody" = .ok none ∧
    getCurrentUserErr (.ok "idA") fetch404 = .ok none :=
  ⟨claim_C9.1 fetch404 "nobody" docNotFoundMsg rfl,
   claim_C9.2 (.ok "idA") fetch404 "idA" 404 rfl rfl⟩

/-! ## Claim C7 -/

theorem loginAfterCheck_events (w : World) (email pw : String) (evs : List Ev) (acc : Account)
    (hcred : findByCredentials w.accounts email pw = some acc) :
    ∃ t, (loginAfterCheck w email pw evs).events = evs ++ Ev.createSessionEv email :: t := by
  simp only [loginAfterCheck, hcred]
  cases hg : getCurrentUserW { w with session := some acc.id } with
  | some u => exact ⟨[], by simp⟩
  | none =>
    cases ha : accountGet { w with session := some acc.id } with
    | none => exact ⟨[], by simp⟩
    | some a =>
      cases hc : createUserDocument (schemaRespond w.schema a.id) w.updFields 4
          [("email", Value.str a.email), ("name", Value.str a.name),
           ("createdBy", Value.str a.id)] with
      | none => exact ⟨[], by simp [hc]⟩
      | some out =>
        cases hres : out.res with
        | success d =>
          cases hg2 : getCurrentUserW
              (World.mk w.accounts (d :: w.userDocs) w.schema (some acc.id) out.fields) with
          | some u => exact ⟨[Ev.createDocEv a.id], by simp [hc, hres, hg2]⟩
          | none => exact ⟨[Ev.createDocEv a.id], by simp [hc, hres, hg2]⟩
        | unknownMandatory a2 => exact ⟨[], by simp [hc, hres]⟩
        | noValidFields => exact ⟨[], by simp [hc, hres]⟩
        | backendFailed m => exact ⟨[], by simp [hc, hres]⟩

/-- Claim C7: logging in while a session for a different profile identity
is active deletes all sessions before the new session is created (the
recorded backend calls begin with the session deletion followed by the
session creation); logging in while the same identity is active is
idempotent - it returns the current profile with no state change and no
session calls. -/
theorem claim_C7 :
    (∀ (w : World) (email pw : String) (cu : UserE) (acc : Account),
      getCurrentUserW w = some cu → cu.email ≠ Value.str email →
      findByCredentials w.accounts email pw = some acc →
      (login w email pw).events.take 2 = [Ev.deleteSessionsEv, Ev.createSessionEv email]) ∧
    (∀ (w : World) (email pw : String) (cu : UserE),
      getCurrentUserW w = some cu → cu.email = Value.str email →
      login w email pw = ⟨.ok cu, w, []⟩) := by
  constructor
  · intro w email pw cu acc hcu hne hcred
    obtain ⟨b, hb⟩ : ∃ b, accountGet w = some b := by
      cases hag : accountGet w with
      | none => rw [getCurrentUserW, hag] at hcu; cases hcu
      | some b => exact ⟨b, rfl⟩
    have hcred2 : findByCredentials ({ w with session := none } : World).accounts email pw
        = some acc := hcred
    obtain ⟨t, ht⟩ :=
      loginAfterCheck_events { w with session := none } email pw [Ev.deleteSessionsEv] acc hcred2
    simp only [login, hb, hcu]
    rw [if_neg hne, ht]
    rfl
  · intro w email pw cu hcu heq
    obtain ⟨b, hb⟩ : ∃ b, accountGet w = some b := by
      cases hag : accountGet w with
      | none => rw [getCurrentUserW, hag] at hcu; cases hcu
      | some b => exact ⟨b, rfl⟩
    simp only [login, hb, hcu]
    rw [if_pos heq]

/-- Witness for claim C7: in `worldB` (session for B) a login as A deletes
all sessions and then creates the new session; in `worldA` (session for A)
the same login returns the stored profile of A untouched. -/
theorem claim_C7_witness :
    (login worldB "a@example.com" "pwA").events.take 2 =
      [Ev.deleteSessionsEv, Ev.createSessionEv "a@example.com"] ∧
    login worldA "a@example.com" "pwA" = ⟨.ok (mapUserDocument docAccA), worldA, []⟩ :=
  ⟨claim_C7.1 worldB "a@example.com" "pwA" (mapUserDocument docAccB) accA
     (by decide) (by decide) (by decide),
   claim_C7.2 worldA "a@example.com" "pwA" (mapUserDocument docAccA)
     (by decide) (by decide)⟩
